import Mathlib

/-!
Verification of the markitdown Flask service (src/services/markitdown-service/app.py).

The service exposes three HTTP handlers: `health_check` (GET /health),
`convert_file` (POST /convert) and `convert_url` (POST /convert-url).  We embed
them shallowly:

* JSON values (both parsed request bodies and response bodies produced by
  `jsonify`) are the inductive type `Json`.
* The framework boundary delivers the outcome of `request.get_json()` for
  /convert-url as a `GetJsonOutcome`: `parsed data` when a JSON body was
  decoded, `noBody` when the call returns `None` (no parseable body, in the
  Flask versions where `get_json` does not raise there), and `raised msg`
  when the call raises inside the handler's `try` (Flask raises `BadRequest`
  on a malformed JSON body and, in recent versions, `UnsupportedMediaType`
  on a missing or non-JSON content type; both are ordinary exceptions that
  the handler's own `except Exception` catches, producing the 500 failure
  body).  The multipart fields of /convert are a `ConvertRequest`
  (`request.files` entry under the key "file", and the optional form field
  "filename").
* The external MarkItDown library is an oracle parameter.  For /convert it is
  invoked on the staged temporary path; its behaviour may depend on the path
  and on the bytes stored there (which the handler has just written).  It
  either returns a result (`LibOutcome.ok`, carrying `some text_content`, or
  `none` when the call returns a falsy result) or raises (`LibOutcome.raise`
  with the exception message, Python `str(e)`).
* Filesystem side effects of /convert are recorded as a trace of `FsEvent`s:
  creation of the staged temporary file (entering the
  `tempfile.NamedTemporaryFile(delete=False, suffix=...)` block) and the
  `os.unlink` attempt in the `finally` cleanup, whose `ok` flag records
  whether the unlink succeeded (`false` models an `OSError`, which the code
  swallows).
* `file.save(temp_file.name)` may raise; `FileEnv.saveResult = some msg`
  models that exception.  Note the source assigns `temp_file_path` only after
  `file.save` succeeds, and the `try/finally` cleanup block only starts after
  the `with` block: when `file.save` raises, control jumps directly to the
  outer `except`, so no unlink is attempted on that path.
* Python truthiness (`not data`) and the membership test (`'url' not in
  data`), including the `TypeError` that `in` raises on non-iterable values,
  are modelled by `truthy` and `pyContains`; subscription `data['url']` by
  `pyIndex`.  Exception message texts are representative, not verbatim.
-/

/-- A JSON value, as parsed by the framework or produced by `jsonify`. -/
inductive Json where
  | null : Json
  | bool (b : Bool) : Json
  | num (n : Int) : Json
  | str (s : String) : Json
  | arr (xs : List Json) : Json
  | obj (kvs : List (String × Json)) : Json

/-- Python dict lookup for a dict built from parsed JSON: later bindings for
the same key shadow earlier ones (as in `json.loads`). -/
def dictGet : List (String × Json) → String → Option Json
  | [], _ => none
  | (k, v) :: rest, key =>
    match dictGet rest key with
    | some w => some w
    | none => if k = key then some v else none

/-- Field access on a JSON object; `none` on non-objects. -/
def jsonField (j : Json) (key : String) : Option Json :=
  match j with
  | Json.obj kvs => dictGet kvs key
  | _ => none

/-- Python truthiness of a parsed JSON value (`bool(data)`). -/
def truthy : Json → Bool
  | Json.null => false
  | Json.bool b => b
  | Json.num n => n != 0
  | Json.str s => s != ""
  | Json.arr xs => !xs.isEmpty
  | Json.obj kvs => !kvs.isEmpty

/-- Substring test over characters, as Python `needle in haystack` on strings. -/
def strContains (hay need : String) : Bool :=
  (List.range (hay.length + 1)).any (fun i => need.data.isPrefixOf (hay.data.drop i))

/-- Python membership test `key in data` for a parsed JSON value: key lookup
on dicts, element equality on lists, substring on strings, and a `TypeError`
on non-iterable values (None, bool, numbers). -/
def pyContains (data : Json) (key : String) : Except String Bool :=
  match data with
  | Json.obj kvs => Except.ok (dictGet kvs key).isSome
  | Json.arr xs =>
    Except.ok (xs.any (fun x => match x with | Json.str s => s == key | _ => false))
  | Json.str s => Except.ok (strContains s key)
  | Json.null => Except.error "argument of type NoneType is not iterable"
  | Json.bool _ => Except.error "argument of type bool is not iterable"
  | Json.num _ => Except.error "argument of type int is not iterable"

/-- Python subscription `data[key]` for a parsed JSON value: dict lookup
(raising `KeyError` when absent), `TypeError` on other values. -/
def pyIndex (data : Json) (key : String) : Except String Json :=
  match data with
  | Json.obj kvs =>
    match dictGet kvs key with
    | some v => Except.ok v
    | none => Except.error (String.append "KeyError: " key)
  | Json.arr _ => Except.error "list indices must be integers or slices, not str"
  | Json.str _ => Except.error "string indices must be integers"
  | Json.null => Except.error "NoneType object is not subscriptable"
  | Json.bool _ => Except.error "bool object is not subscriptable"
  | Json.num _ => Except.error "int object is not subscriptable"

/-- Last index of `c` in `cs`, or -1 when absent (Python `str.rfind`). -/
def rfindChar (c : Char) (cs : List Char) : Int :=
  (List.range cs.length).foldl
    (fun acc i => if cs.get? i = some c then (i : Int) else acc) (-1)

/-- Extension part of `os.path.splitext(s)` (posixpath): the suffix from the
last dot, provided that dot lies after the last path separator and some
character of the base name before it is not a dot (so dotfiles such as
".bashrc" have no extension). -/
def splitextExt (s : String) : String :=
  let cs := s.data
  let sepIndex := rfindChar '/' cs
  let dotIndex := rfindChar '.' cs
  if dotIndex > sepIndex then
    let fi := (sepIndex + 1).toNat
    let di := dotIndex.toNat
    if (List.range di).any (fun i => decide (fi ≤ i) && !(cs.get? i == some '.')) then
      String.mk (cs.drop di)
    else ""
  else ""

/-- The uploaded file of a /convert request: its reported filename
(`file.filename`) and its bytes (what `file.save` writes). -/
structure UploadedFile where
  filename : String
  content : List Nat
deriving DecidableEq

/-- A /convert request: the `request.files` entry under the key "file" (none
when no such field is present) and the optional form field "filename". -/
structure ConvertRequest where
  file : Option UploadedFile
  formFilename : Option String
deriving DecidableEq

/-- The filename in effect for the conversion:
`request.form.get('filename', file.filename)`. -/
def effectiveFilename (req : ConvertRequest) (file : UploadedFile) : String :=
  req.formFilename.getD file.filename

/-- The staged temporary path produced by
`tempfile.NamedTemporaryFile(delete=False, suffix=ext)`: a platform-chosen
unique dotless base plus the requested suffix. -/
structure StagedPath where
  base : String
  suffix : String
deriving DecidableEq

/-- Outcome of a `markitdown.convert` call: a returned result (`ok`, with
`some text_content`, or `none` for a falsy result) or a raised exception
carrying its message. -/
inductive LibOutcome where
  | ok (r : Option String) : LibOutcome
  | raise (msg : String) : LibOutcome

/-- A filesystem side effect of the /convert handler: creation of the staged
temporary file, or the `os.unlink` attempt in the cleanup (whose flag records
whether the unlink succeeded; a failed attempt raises `OSError`, which the
handler swallows, leaving the file in place). -/
inductive FsEvent where
  | create (p : StagedPath) : FsEvent
  | unlinkAttempt (p : StagedPath) (ok : Bool) : FsEvent
deriving DecidableEq

/-- Paths created by a trace. -/
def createdPaths (tr : List FsEvent) : List StagedPath :=
  tr.filterMap (fun e => match e with | FsEvent.create p => some p | _ => none)

/-- Paths successfully removed by a trace. -/
def removedPaths (tr : List FsEvent) : List StagedPath :=
  tr.filterMap (fun e => match e with | FsEvent.unlinkAttempt p true => some p | _ => none)

/-- Whether a staged path remains on disk after a trace: created and never
successfully unlinked. -/
def stagedRemains (tr : List FsEvent) (p : StagedPath) : Bool :=
  (createdPaths tr).contains p && !((removedPaths tr).contains p)

/-- An HTTP response: the status code and the JSON body. -/
structure HttpResponse where
  status : Nat
  body : Json

/-- The fixed 400-style error body `jsonify({'error': msg})`. -/
def errBody (msg : String) : Json := Json.obj [("error", Json.str msg)]

/-- The 500-style failure body `jsonify({'success': False, 'error': msg})`. -/
def failBody (msg : String) : Json :=
  Json.obj [("success", Json.bool false), ("error", Json.str msg)]

/-- The per-request environment of the /convert handler: the platform-chosen
temporary base name, whether `file.save` raises (and with which message),
whether the cleanup `os.unlink` succeeds, and the external library oracle,
invoked on the staged path and the bytes stored there. -/
structure FileEnv where
  tempBase : String
  saveResult : Option String
  unlinkOk : Bool
  lib : StagedPath → List Nat → LibOutcome

/-- The /convert handler (`convert_file` in app.py): validates the multipart
request, stages the upload into a fresh temporary file whose suffix is the
extension of the effective filename, invokes the library on the staged path,
and maps outcomes to JSON responses.  Returns the response together with the
trace of filesystem events.  When `file.save` raises, the source's
`temp_file_path` is never assigned and the cleanup `try/finally` has not been
entered, so control reaches the outer `except` with no unlink attempt. -/
def convert_file (env : FileEnv) (req : ConvertRequest) :
    HttpResponse × List FsEvent :=
  match req.file with
  | none => ({ status := 400, body := errBody "No file provided" }, [])
  | some file =>
    if file.filename = "" then
      ({ status := 400, body := errBody "No file selected" }, [])
    else
      let filename := effectiveFilename req file
      let p : StagedPath := { base := env.tempBase, suffix := splitextExt filename }
      match env.saveResult with
      | some msg =>
        ({ status := 500, body := failBody msg }, [FsEvent.create p])
      | none =>
        match env.lib p file.content with
        | LibOutcome.raise msg =>
          ({ status := 500, body := failBody msg },
           [FsEvent.create p, FsEvent.unlinkAttempt p env.unlinkOk])
        | LibOutcome.ok r =>
          let markdown_content := r.getD ""
          ({ status := 200,
             body := Json.obj
               [("success", Json.bool true),
                ("filename", Json.str filename),
                ("markdown", Json.str markdown_content),
                ("original_size", Json.num (file.content.length : Int)),
                ("markdown_size", Json.num (markdown_content.length : Int))] },
           [FsEvent.create p, FsEvent.unlinkAttempt p env.unlinkOk])

/-- Outcome of the `request.get_json()` call at the top of `convert_url`:
it returns a parsed JSON value, returns `None` (no parseable body, in the
Flask versions where it does not raise there), or raises (a `BadRequest` on
malformed JSON in every Flask version, an `UnsupportedMediaType` on a
missing or non-JSON content type in recent ones), carrying the exception
message `str(e)`. -/
inductive GetJsonOutcome where
  | parsed (data : Json) : GetJsonOutcome
  | noBody : GetJsonOutcome
  | raised (msg : String) : GetJsonOutcome

/-- The /convert-url handler (`convert_url` in app.py): `body` is the
outcome of `request.get_json()`, `lib` the library oracle invoked on the url
value.  A raising `get_json` is caught by the handler's own catch-all and
becomes the 500 failure body; a `None` body fails the truthiness test and
takes the 400 branch.  Returns the response together with the list of
arguments passed to the library. -/
def convert_url (lib : Json → LibOutcome) (body : GetJsonOutcome) :
    HttpResponse × List Json :=
  match body with
  | GetJsonOutcome.raised msg => ({ status := 500, body := failBody msg }, [])
  | GetJsonOutcome.noBody => ({ status := 400, body := errBody "No URL provided" }, [])
  | GetJsonOutcome.parsed data =>
    if truthy data = false then
      ({ status := 400, body := errBody "No URL provided" }, [])
    else
      match pyContains data "url" with
      | Except.error msg => ({ status := 500, body := failBody msg }, [])
      | Except.ok false => ({ status := 400, body := errBody "No URL provided" }, [])
      | Except.ok true =>
        match pyIndex data "url" with
        | Except.error msg => ({ status := 500, body := failBody msg }, [])
        | Except.ok url =>
          match lib url with
          | LibOutcome.raise msg => ({ status := 500, body := failBody msg }, [url])
          | LibOutcome.ok r =>
            let markdown_content := r.getD ""
            ({ status := 200,
               body := Json.obj
                 [("success", Json.bool true),
                  ("url", url),
                  ("markdown", Json.str markdown_content),
                  ("markdown_size", Json.num (markdown_content.length : Int))] },
             [url])

/-- The GET /health handler (`health_check` in app.py): a fixed 200 response
and no side effects (empty trace). -/
def health_check : HttpResponse × List FsEvent :=
  ({ status := 200,
     body := Json.obj
       [("status", Json.str "healthy"),
        ("service", Json.str "markitdown-service")] }, [])

/-- Claim C8: every GET /health request returns status 200 with exactly the
fixed body containing status "healthy" and service "markitdown-service",
independent of any request content or prior requests (the handler takes no
input and reads no state), and performs no side effects (empty trace). -/
theorem c8_health_check_fixed_response :
    health_check =
      ({ status := 200,
         body := Json.obj
           [("status", Json.str "healthy"),
            ("service", Json.str "markitdown-service")] }, []) := rfl

/-- Claim C1 (failing input): a /convert request whose upload is named
"test.md" and whose staging write (`file.save`) raises OSError
"No space left on device".  The handler creates the staged temporary file and
returns the 500 failure response, but the trace contains no unlink attempt,
so the staged file remains on disk — contradicting the claim that the staged
file is always deleted exactly once and never remains. -/
theorem c1_staging_failure_leaks_staged_file :
    (convert_file
        { tempBase := "tmpZ", saveResult := some "No space left on device",
          unlinkOk := true, lib := fun _ _ => LibOutcome.ok none }
        { file := some { filename := "test.md", content := [35, 32, 72, 105] },
          formFilename := none }).fst.status = 500 ∧
    (convert_file
        { tempBase := "tmpZ", saveResult := some "No space left on device",
          unlinkOk := true, lib := fun _ _ => LibOutcome.ok none }
        { file := some { filename := "test.md", content := [35, 32, 72, 105] },
          formFilename := none }).snd
      = [FsEvent.create { base := "tmpZ", suffix := ".md" }] ∧
    stagedRemains
      (convert_file
        { tempBase := "tmpZ", saveResult := some "No space left on device",
          unlinkOk := true, lib := fun _ _ => LibOutcome.ok none }
        { file := some { filename := "test.md", content := [35, 32, 72, 105] },
          formFilename := none }).snd
      { base := "tmpZ", suffix := ".md" } = true := by
  refine ⟨rfl, ?_, ?_⟩ <;> decide

/-- Claim C2 (counterexample): two bodies on which the claimed fixed 400
"No URL provided" response is not produced.  The body "5" is valid JSON
lacking the url field, yet the response is the 500 failure produced by the
TypeError of the membership test.  A body that is not valid JSON makes
`request.get_json()` raise BadRequest inside the handler, which the
catch-all turns into the 500 failure body, again not the 400 error. -/
theorem c2_counterexample_scalar_and_malformed_body :
    convert_url (fun _ => LibOutcome.ok none) (GetJsonOutcome.parsed (Json.num 5))
      = ({ status := 500,
           body := failBody "argument of type int is not iterable" }, []) ∧
    convert_url (fun _ => LibOutcome.ok none)
        (GetJsonOutcome.raised "400 Bad Request: Failed to decode JSON object")
      = ({ status := 500,
           body := failBody "400 Bad Request: Failed to decode JSON object" }, []) ∧
    (500 : Nat) ≠ 400 := by
  exact ⟨rfl, rfl, by decide⟩

/-- Claim C3 (counterexample): a /convert request whose uploaded file reports
the name "a.txt" but whose form field "filename" is the empty string.  The
filename in effect for the conversion is "", yet the handler does not return
the claimed 400 "No file selected" error: the emptiness check inspects only
the uploaded file's reported name, and the request proceeds to a 200. -/
theorem c3_counterexample_empty_override :
    effectiveFilename
        { file := some { filename := "a.txt", content := [104, 105] },
          formFilename := some "" }
        { filename := "a.txt", content := [104, 105] } = "" ∧
    (convert_file
        { tempBase := "tmpX", saveResult := none, unlinkOk := true,
          lib := fun _ _ => LibOutcome.ok (some "hi") }
        { file := some { filename := "a.txt", content := [104, 105] },
          formFilename := some "" }).fst.status = 200 := by
  exact ⟨rfl, rfl⟩

/-- Claim C4 (counterexample): a /convert request in which staging
(`file.save`) raises.  The handler does return the structured 500 body, but
the trace shows the staged file is created and never unlinked — contradicting
the part of the claim that says the staged file is still deleted on every
exception path. -/
theorem c4_counterexample_staging_failure_no_cleanup :
    convert_file
        { tempBase := "tmpY", saveResult := some "disk full", unlinkOk := true,
          lib := fun _ _ => LibOutcome.ok none }
        { file := some { filename := "b.pdf", content := [37, 80] },
          formFilename := none }
      = ({ status := 500, body := failBody "disk full" },
         [FsEvent.create { base := "tmpY", suffix := ".pdf" }]) ∧
    removedPaths
        (convert_file
          { tempBase := "tmpY", saveResult := some "disk full", unlinkOk := true,
            lib := fun _ _ => LibOutcome.ok none }
          { file := some { filename := "b.pdf", content := [37, 80] },
            formFilename := none }).snd = [] := by
  exact ⟨rfl, rfl⟩

/-- Claim C2 (amended): for every request to /convert-url whose
`request.get_json()` returns None (no parseable body), or whose parsed JSON
body is falsy (null, false, 0, "", empty array or object), or whose parsed
body is one on which the membership test for "url" evaluates to False (an
object lacking the key, an array with no "url" string element, a string
without the substring "url"), the response is exactly the 400 error with
body error "No URL provided", and the conversion library is not invoked
(empty call trace).  (The original claim also covered bodies that are not
valid JSON — there `get_json` raises and the catch-all yields the 500
failure body — and truthy non-iterable bodies such as the number 5, where
the membership test raises TypeError, again yielding a 500.) -/
theorem c2_amended_validation_400 (lib : Json → LibOutcome) (v w : Json) :
    (convert_url lib GetJsonOutcome.noBody
      = ({ status := 400, body := errBody "No URL provided" }, [])) ∧
    (truthy v = false →
      convert_url lib (GetJsonOutcome.parsed v)
        = ({ status := 400, body := errBody "No URL provided" }, [])) ∧
    (pyContains w "url" = Except.ok false →
      convert_url lib (GetJsonOutcome.parsed w)
        = ({ status := 400, body := errBody "No URL provided" }, [])) := by
  refine ⟨rfl, ?_, ?_⟩
  · intro hv
    unfold convert_url
    dsimp only
    rw [if_pos hv]
  · intro hw
    unfold convert_url
    dsimp only
    by_cases ht : truthy w = false
    · rw [if_pos ht]
    · rw [if_neg ht, hw]

/-- Witness for C2 (amended): a missing body, a falsy parsed body (the empty
object) and a truthy object body lacking "url" all produce the fixed 400
response with no library call. -/
theorem c2_amended_witness :
    (convert_url (fun _ => LibOutcome.ok none) GetJsonOutcome.noBody
      = ({ status := 400, body := errBody "No URL provided" }, [])) ∧
    (truthy (Json.obj []) = false ∧
      convert_url (fun _ => LibOutcome.ok none) (GetJsonOutcome.parsed (Json.obj []))
        = ({ status := 400, body := errBody "No URL provided" }, [])) ∧
    (pyContains (Json.obj [("link", Json.str "x")]) "url" = Except.ok false ∧
      convert_url (fun _ => LibOutcome.ok none)
          (GetJsonOutcome.parsed (Json.obj [("link", Json.str "x")]))
        = ({ status := 400, body := errBody "No URL provided" }, [])) :=
  ⟨(c2_amended_validation_400 (fun _ => LibOutcome.ok none) Json.null Json.null).1,
   ⟨rfl, (c2_amended_validation_400 (fun _ => LibOutcome.ok none) (Json.obj [])
            Json.null).2.1 rfl⟩,
   ⟨rfl, (c2_amended_validation_400 (fun _ => LibOutcome.ok none) Json.null
            (Json.obj [("link", Json.str "x")])).2.2 rfl⟩⟩

/-- Claim C3 (amended): for every /convert request with no file field the
response is exactly the 400 error "No file provided"; and for every request
whose uploaded file's reported name (`file.filename`) is the empty string the
response is exactly the 400 error "No file selected".  (The original claim
keyed the second check to the effective filename including the form
override; the code inspects only the uploaded file's reported name.) -/
theorem c3_amended_validation_errors (env : FileEnv) (req : ConvertRequest) :
    (req.file = none →
      convert_file env req = ({ status := 400, body := errBody "No file provided" }, [])) ∧
    (∀ f, req.file = some f → f.filename = "" →
      convert_file env req = ({ status := 400, body := errBody "No file selected" }, [])) := by
  constructor
  · intro h
    unfold convert_file
    rw [h]
  · intro f hf he
    unfold convert_file
    rw [hf]
    simp [he]

/-- Witness for C3 (amended) at concrete requests: one with no file field,
one whose uploaded file reports the empty name. -/
theorem c3_amended_witness :
    convert_file
        { tempBase := "t", saveResult := none, unlinkOk := true,
          lib := fun _ _ => LibOutcome.ok none }
        { file := none, formFilename := none }
      = ({ status := 400, body := errBody "No file provided" }, []) ∧
    convert_file
        { tempBase := "t", saveResult := none, unlinkOk := true,
          lib := fun _ _ => LibOutcome.ok none }
        { file := some { filename := "", content := [1] }, formFilename := some "a.md" }
      = ({ status := 400, body := errBody "No file selected" }, []) :=
  ⟨(c3_amended_validation_errors
      { tempBase := "t", saveResult := none, unlinkOk := true,
        lib := fun _ _ => LibOutcome.ok none }
      { file := none, formFilename := none }).1 rfl,
   (c3_amended_validation_errors
      { tempBase := "t", saveResult := none, unlinkOk := true,
        lib := fun _ _ => LibOutcome.ok none }
      { file := some { filename := "", content := [1] }, formFilename := some "a.md" }).2
     { filename := "", content := [1] } rfl rfl⟩

/-- Claim C10: for every /convert invocation, whether the cleanup unlink
succeeds or raises OSError makes no difference to the response: the handler
swallows the OSError and returns the same body and status either way. -/
theorem c10_unlink_failure_response_unchanged (tb : String) (sr : Option String)
    (lib : StagedPath → List Nat → LibOutcome) (b1 b2 : Bool) (req : ConvertRequest) :
    (convert_file { tempBase := tb, saveResult := sr, unlinkOk := b1, lib := lib } req).fst
      = (convert_file { tempBase := tb, saveResult := sr, unlinkOk := b2, lib := lib } req).fst := by
  unfold convert_file
  cases req.file with
  | none => rfl
  | some file =>
    dsimp only
    by_cases he : file.filename = ""
    · rw [if_pos he, if_pos he]
    · rw [if_neg he, if_neg he]
      cases sr with
      | some m => rfl
      | none =>
        dsimp only
        cases lib { base := tb, suffix := splitextExt (effectiveFilename req file) }
            file.content with
        | raise m => rfl
        | ok r => rfl

/-- Claim C4 (amended): on any exception during staging or during the
external library call, the handler catches it and returns the structured
body with success false and the exception message, at status 500, never
propagating the exception; for /convert the staged file is deleted when the
exception arises during the library call, but when staging itself
(`file.save`) raises, the 500 response is still returned while the staged
file is not deleted. -/
theorem c4_amended_exception_handling (env : FileEnv) (req : ConvertRequest)
    (f : UploadedFile) (m : String) (ulib : Json → LibOutcome)
    (kvs : List (String × Json)) (v : Json) :
    (req.file = some f → f.filename ≠ "" → env.saveResult = some m →
      convert_file env req
        = ({ status := 500, body := failBody m },
           [FsEvent.create
              { base := env.tempBase,
                suffix := splitextExt (effectiveFilename req f) }])) ∧
    (req.file = some f → f.filename ≠ "" → env.saveResult = none →
      env.lib { base := env.tempBase, suffix := splitextExt (effectiveFilename req f) }
          f.content = LibOutcome.raise m →
      convert_file env req
        = ({ status := 500, body := failBody m },
           [FsEvent.create
              { base := env.tempBase,
                suffix := splitextExt (effectiveFilename req f) },
            FsEvent.unlinkAttempt
              { base := env.tempBase,
                suffix := splitextExt (effectiveFilename req f) } env.unlinkOk])) ∧
    (dictGet kvs "url" = some v → ulib v = LibOutcome.raise m →
      convert_url ulib (GetJsonOutcome.parsed (Json.obj kvs))
        = ({ status := 500, body := failBody m }, [v])) := by
  refine ⟨?_, ?_, ?_⟩
  · intro hf hne hs
    unfold convert_file
    rw [hf]
    dsimp only
    rw [if_neg hne, hs]
  · intro hf hne hs hl
    unfold convert_file
    rw [hf]
    dsimp only
    rw [if_neg hne, hs]
    dsimp only
    rw [hl]
  · intro hu hl
    cases kvs with
    | nil => simp [dictGet] at hu
    | cons kv rest =>
      unfold convert_url
      simp [truthy, pyContains, pyIndex, hu, hl]

/-- Witness for C4 (amended) at concrete inputs: a staging failure, a
library failure on /convert, and a library failure on /convert-url. -/
theorem c4_amended_witness :
    convert_file
        { tempBase := "t1", saveResult := some "boom", unlinkOk := true,
          lib := fun _ _ => LibOutcome.ok none }
        { file := some { filename := "a.md", content := [1, 2] }, formFilename := none }
      = ({ status := 500, body := failBody "boom" },
         [FsEvent.create { base := "t1", suffix := ".md" }]) ∧
    convert_file
        { tempBase := "t2", saveResult := none, unlinkOk := true,
          lib := fun _ _ => LibOutcome.raise "conv failed" }
        { file := some { filename := "a.md", content := [1, 2] }, formFilename := none }
      = ({ status := 500, body := failBody "conv failed" },
         [FsEvent.create { base := "t2", suffix := ".md" },
          FsEvent.unlinkAttempt { base := "t2", suffix := ".md" } true]) ∧
    convert_url (fun _ => LibOutcome.raise "fetch failed")
        (GetJsonOutcome.parsed (Json.obj [("url", Json.str "not-a-real-url")]))
      = ({ status := 500, body := failBody "fetch failed" }, [Json.str "not-a-real-url"]) :=
  ⟨(c4_amended_exception_handling
      { tempBase := "t1", saveResult := some "boom", unlinkOk := true,
        lib := fun _ _ => LibOutcome.ok none }
      { file := some { filename := "a.md", content := [1, 2] }, formFilename := none }
      { filename := "a.md", content := [1, 2] } "boom" (fun _ => LibOutcome.ok none) [] Json.null).1
      rfl (by decide) rfl,
   (c4_amended_exception_handling
      { tempBase := "t2", saveResult := none, unlinkOk := true,
        lib := fun _ _ => LibOutcome.raise "conv failed" }
      { file := some { filename := "a.md", content := [1, 2] }, formFilename := none }
      { filename := "a.md", content := [1, 2] } "conv failed" (fun _ => LibOutcome.ok none)
      [] Json.null).2.1 rfl (by decide) rfl rfl,
   (c4_amended_exception_handling
      { tempBase := "t", saveResult := none, unlinkOk := true,
        lib := fun _ _ => LibOutcome.ok none }
      { file := none, formFilename := none }
      { filename := "x", content := [] } "fetch failed"
      (fun _ => LibOutcome.raise "fetch failed")
      [("url", Json.str "not-a-real-url")] (Json.str "not-a-real-url")).2.2 rfl rfl⟩

/-- Claim C5: for every successful (status 200) response of /convert and of
/convert-url, the markdown_size field equals the character length of the
markdown field of the same response. -/
theorem c5_markdown_size_matches_length (env : FileEnv) (req : ConvertRequest)
    (ulib : Json → LibOutcome) (body : GetJsonOutcome) :
    ((convert_file env req).fst.status = 200 →
      ∃ md : String,
        jsonField (convert_file env req).fst.body "markdown" = some (Json.str md) ∧
        jsonField (convert_file env req).fst.body "markdown_size"
          = some (Json.num (md.length : Int))) ∧
    ((convert_url ulib body).fst.status = 200 →
      ∃ md : String,
        jsonField (convert_url ulib body).fst.body "markdown" = some (Json.str md) ∧
        jsonField (convert_url ulib body).fst.body "markdown_size"
          = some (Json.num (md.length : Int))) := by
  constructor
  · unfold convert_file
    cases req.file with
    | none => intro h; dsimp only at h; exact absurd h (by decide)
    | some file =>
      dsimp only
      by_cases he : file.filename = ""
      · rw [if_pos he]; intro h; dsimp only at h; exact absurd h (by decide)
      · rw [if_neg he]
        cases hs : env.saveResult with
        | some m => intro h; dsimp only at h; exact absurd h (by decide)
        | none =>
          dsimp only
          cases hl : env.lib
              { base := env.tempBase, suffix := splitextExt (effectiveFilename req file) }
              file.content with
          | raise m => intro h; dsimp only at h; exact absurd h (by decide)
          | ok r =>
            intro _
            refine ⟨r.getD "", ?_, ?_⟩ <;> simp [jsonField, dictGet]
  · unfold convert_url
    cases body with
    | noBody => intro h; dsimp only at h; exact absurd h (by decide)
    | raised m => intro h; dsimp only at h; exact absurd h (by decide)
    | parsed data =>
      dsimp only
      by_cases ht : truthy data = false
      · rw [if_pos ht]; intro h; dsimp only at h; exact absurd h (by decide)
      · rw [if_neg ht]
        cases hc : pyContains data "url" with
        | error m => intro h; dsimp only at h; exact absurd h (by decide)
        | ok b =>
          cases b with
          | false => intro h; dsimp only at h; exact absurd h (by decide)
          | true =>
            dsimp only
            cases hi : pyIndex data "url" with
            | error m => intro h; dsimp only at h; exact absurd h (by decide)
            | ok url =>
              dsimp only
              cases hl : ulib url with
              | raise m => intro h; dsimp only at h; exact absurd h (by decide)
              | ok r =>
                intro _
                refine ⟨r.getD "", ?_, ?_⟩ <;> simp [jsonField, dictGet]

/-- Witness for C5 at a concrete successful /convert invocation. -/
theorem c5_witness :
    (convert_file
        { tempBase := "w5", saveResult := none, unlinkOk := true,
          lib := fun _ _ => LibOutcome.ok (some "# Hi") }
        { file := some { filename := "test.md", content := [35, 32, 72, 105] },
          formFilename := none }).fst.status = 200 ∧
    (∃ md : String,
      jsonField
        (convert_file
          { tempBase := "w5", saveResult := none, unlinkOk := true,
            lib := fun _ _ => LibOutcome.ok (some "# Hi") }
          { file := some { filename := "test.md", content := [35, 32, 72, 105] },
            formFilename := none }).fst.body "markdown" = some (Json.str md) ∧
      jsonField
        (convert_file
          { tempBase := "w5", saveResult := none, unlinkOk := true,
            lib := fun _ _ => LibOutcome.ok (some "# Hi") }
          { file := some { filename := "test.md", content := [35, 32, 72, 105] },
            formFilename := none }).fst.body "markdown_size"
        = some (Json.num (md.length : Int))) :=
  ⟨rfl,
   (c5_markdown_size_matches_length
      { tempBase := "w5", saveResult := none, unlinkOk := true,
        lib := fun _ _ => LibOutcome.ok (some "# Hi") }
      { file := some { filename := "test.md", content := [35, 32, 72, 105] },
        formFilename := none }
      (fun _ => LibOutcome.ok none) GetJsonOutcome.noBody).1 rfl⟩

/-- Claim C6: when the external library call returns no result (a falsy
result, modelled as `LibOutcome.ok none`), the handler treats the text
payload as the empty string and returns a success response with markdown ""
and markdown_size 0, for /convert and for /convert-url alike. -/
theorem c6_null_result_empty_markdown (env : FileEnv) (req : ConvertRequest)
    (f : UploadedFile) (ulib : Json → LibOutcome)
    (kvs : List (String × Json)) (v : Json) :
    (req.file = some f → f.filename ≠ "" → env.saveResult = none →
      env.lib { base := env.tempBase, suffix := splitextExt (effectiveFilename req f) }
          f.content = LibOutcome.ok none →
      (convert_file env req).fst
        = { status := 200,
            body := Json.obj
              [("success", Json.bool true),
               ("filename", Json.str (effectiveFilename req f)),
               ("markdown", Json.str ""),
               ("original_size", Json.num (f.content.length : Int)),
               ("markdown_size", Json.num 0)] }) ∧
    (dictGet kvs "url" = some v → ulib v = LibOutcome.ok none →
      (convert_url ulib (GetJsonOutcome.parsed (Json.obj kvs))).fst
        = { status := 200,
            body := Json.obj
              [("success", Json.bool true),
               ("url", v),
               ("markdown", Json.str ""),
               ("markdown_size", Json.num 0)] }) := by
  constructor
  · intro hf hne hs hl
    unfold convert_file
    rw [hf]
    dsimp only
    rw [if_neg hne, hs]
    dsimp only
    rw [hl]
    rfl
  · intro hu hl
    cases kvs with
    | nil => simp [dictGet] at hu
    | cons kv rest =>
      unfold convert_url
      simp [truthy, pyContains, pyIndex, hu, hl]

/-- Witness for C6 at concrete inputs where the library returns no result. -/
theorem c6_witness :
    (convert_file
        { tempBase := "w6", saveResult := none, unlinkOk := true,
          lib := fun _ _ => LibOutcome.ok none }
        { file := some { filename := "a.md", content := [9, 8] },
          formFilename := none }).fst
      = { status := 200,
          body := Json.obj
            [("success", Json.bool true),
             ("filename", Json.str "a.md"),
             ("markdown", Json.str ""),
             ("original_size", Json.num 2),
             ("markdown_size", Json.num 0)] } ∧
    (convert_url (fun _ => LibOutcome.ok none)
        (GetJsonOutcome.parsed (Json.obj [("url", Json.str "http://x")]))).fst
      = { status := 200,
          body := Json.obj
            [("success", Json.bool true),
             ("url", Json.str "http://x"),
             ("markdown", Json.str ""),
             ("markdown_size", Json.num 0)] } :=
  ⟨(c6_null_result_empty_markdown
      { tempBase := "w6", saveResult := none, unlinkOk := true,
        lib := fun _ _ => LibOutcome.ok none }
      { file := some { filename := "a.md", content := [9, 8] }, formFilename := none }
      { filename := "a.md", content := [9, 8] }
      (fun _ => LibOutcome.ok none) [] Json.null).1 rfl (by decide) rfl rfl,
   (c6_null_result_empty_markdown
      { tempBase := "w", saveResult := none, unlinkOk := true,
        lib := fun _ _ => LibOutcome.ok none }
      { file := none, formFilename := none }
      { filename := "x", content := [] }
      (fun _ => LibOutcome.ok none)
      [("url", Json.str "http://x")] (Json.str "http://x")).2 rfl rfl⟩

/-- Claim C7: assuming the external library is a deterministic function of
the staged file's content and extension (its outcome does not depend on the
rest of the staged path), two /convert invocations with the same uploaded
bytes and the same effective filename — across different temporary base
names and unlink outcomes — produce identical responses, in particular
identical markdown, markdown_size and original_size fields. -/
theorem c7_deterministic_conversion (lib : StagedPath → List Nat → LibOutcome)
    (hdet : ∀ p q c, p.suffix = q.suffix → lib p c = lib q c)
    (b1 b2 : String) (u1 u2 : Bool) (req1 req2 : ConvertRequest)
    (f1 f2 : UploadedFile)
    (h1 : req1.file = some f1) (h2 : req2.file = some f2)
    (hc : f1.content = f2.content)
    (hn1 : f1.filename ≠ "") (hn2 : f2.filename ≠ "")
    (heff : effectiveFilename req1 f1 = effectiveFilename req2 f2) :
    (convert_file { tempBase := b1, saveResult := none, unlinkOk := u1, lib := lib } req1).fst
      = (convert_file { tempBase := b2, saveResult := none, unlinkOk := u2, lib := lib } req2).fst := by
  unfold convert_file
  rw [h1, h2]
  dsimp only
  rw [if_neg hn1, if_neg hn2]
  rw [heff, hc]
  rw [hdet { base := b1, suffix := splitextExt (effectiveFilename req2 f2) }
        { base := b2, suffix := splitextExt (effectiveFilename req2 f2) } f2.content rfl]
  cases lib { base := b2, suffix := splitextExt (effectiveFilename req2 f2) } f2.content with
  | raise m => rfl
  | ok r => rfl

/-- Witness for C7: the same bytes uploaded under the reported name "a.txt"
and under the reported name "b.txt" with form override "a.txt", staged at
different temporary bases, yield identical responses. -/
theorem c7_witness :
    (convert_file
        { tempBase := "tmpA", saveResult := none, unlinkOk := true,
          lib := fun _ _ => LibOutcome.ok (some "X") }
        { file := some { filename := "a.txt", content := [1, 2] },
          formFilename := none }).fst
      = (convert_file
          { tempBase := "tmpB", saveResult := none, unlinkOk := false,
            lib := fun _ _ => LibOutcome.ok (some "X") }
          { file := some { filename := "b.txt", content := [1, 2] },
            formFilename := some "a.txt" }).fst :=
  c7_deterministic_conversion (fun _ _ => LibOutcome.ok (some "X"))
    (fun _ _ _ _ => rfl) "tmpA" "tmpB" true false
    { file := some { filename := "a.txt", content := [1, 2] }, formFilename := none }
    { file := some { filename := "b.txt", content := [1, 2] }, formFilename := some "a.txt" }
    { filename := "a.txt", content := [1, 2] }
    { filename := "b.txt", content := [1, 2] }
    rfl rfl rfl (by decide) (by decide) rfl

/-- Evaluation lemma: a /convert-url request whose parsed body is an object
containing the key "url" (bound to `v`) skips all validation and reduces to
the library call on `v`. -/
theorem convert_url_obj_with_url (ulib : Json → LibOutcome)
    (kvs : List (String × Json)) (v : Json) (h : dictGet kvs "url" = some v) :
    convert_url ulib (GetJsonOutcome.parsed (Json.obj kvs))
      = (match ulib v with
         | LibOutcome.raise msg => ({ status := 500, body := failBody msg }, [v])
         | LibOutcome.ok r =>
           ({ status := 200,
              body := Json.obj
                [("success", Json.bool true),
                 ("url", v),
                 ("markdown", Json.str (r.getD "")),
                 ("markdown_size", Json.num ((r.getD "").length : Int))] }, [v])) := by
  cases kvs with
  | nil => simp [dictGet] at h
  | cons kv rest =>
    unfold convert_url
    dsimp only
    rw [if_neg (by simp [truthy])]
    have hcont : pyContains (Json.obj (kv :: rest)) "url" = Except.ok true := by
      show Except.ok (dictGet (kv :: rest) "url").isSome = Except.ok true
      rw [h]
      rfl
    rw [hcont]
    have hidx : pyIndex (Json.obj (kv :: rest)) "url" = Except.ok v := by
      show (match dictGet (kv :: rest) "url" with
            | some w => Except.ok w
            | none => Except.error (String.append "KeyError: " "url")) = Except.ok v
      rw [h]
    rw [hidx]

/-- Claim C9: for every /convert-url request whose parsed JSON body is an
object containing the key "url", the handler never takes the 400 validation
branch, regardless of the value's type or content: the value is passed
unmodified (and alone) to the external library, and on success it is echoed
verbatim as the url field of the 200 response. -/
theorem c9_url_key_present_no_validation_error (ulib : Json → LibOutcome)
    (kvs : List (String × Json)) (v : Json) (h : dictGet kvs "url" = some v) :
    (convert_url ulib (GetJsonOutcome.parsed (Json.obj kvs))).fst.status ≠ 400 ∧
    (convert_url ulib (GetJsonOutcome.parsed (Json.obj kvs))).snd = [v] ∧
    (∀ r, ulib v = LibOutcome.ok r →
      (convert_url ulib (GetJsonOutcome.parsed (Json.obj kvs))).fst.status = 200 ∧
      jsonField (convert_url ulib (GetJsonOutcome.parsed (Json.obj kvs))).fst.body "url" = some v) := by
  rw [convert_url_obj_with_url ulib kvs v h]
  cases hl : ulib v with
  | raise m =>
    refine ⟨by dsimp only; decide, rfl, ?_⟩
    intro r hr
    cases hr
  | ok r =>
    refine ⟨by dsimp only; decide, rfl, ?_⟩
    intro r2 _
    exact ⟨rfl, by simp [jsonField, dictGet]⟩

/-- Witness for C9 at a concrete body whose url value is the number 7 (a
non-string JSON value): no validation error, the value is passed through and
echoed. -/
theorem c9_witness :
    (convert_url (fun _ => LibOutcome.ok (some "ok"))
        (GetJsonOutcome.parsed (Json.obj [("url", Json.num 7)]))).fst.status ≠ 400 ∧
    (convert_url (fun _ => LibOutcome.ok (some "ok"))
        (GetJsonOutcome.parsed (Json.obj [("url", Json.num 7)]))).snd = [Json.num 7] ∧
    ((convert_url (fun _ => LibOutcome.ok (some "ok"))
        (GetJsonOutcome.parsed (Json.obj [("url", Json.num 7)]))).fst.status = 200 ∧
      jsonField (convert_url (fun _ => LibOutcome.ok (some "ok"))
        (GetJsonOutcome.parsed (Json.obj [("url", Json.num 7)]))).fst.body "url" = some (Json.num 7)) :=
  ⟨(c9_url_key_present_no_validation_error (fun _ => LibOutcome.ok (some "ok"))
      [("url", Json.num 7)] (Json.num 7) rfl).1,
   (c9_url_key_present_no_validation_error (fun _ => LibOutcome.ok (some "ok"))
      [("url", Json.num 7)] (Json.num 7) rfl).2.1,
   (c9_url_key_present_no_validation_error (fun _ => LibOutcome.ok (some "ok"))
      [("url", Json.num 7)] (Json.num 7) rfl).2.2 (some "ok") rfl⟩
